import Mathlib

/-!
Shallow embedding of the global hotkey capture engine
(`crates/livesplit-hotkey/src/windows/mod.rs`): the scan-code table, the
hook-thread state machine of `callback_proc`, `key_idx`, the hotkey registry
operations and the `Hook::new` preference check, together with theorems about
the spec's testable properties.
-/

set_option maxHeartbeats 1000000
set_option maxRecDepth 100000

namespace LiveSplitHotkey

/-- Modelled from the spec: the `KeyCode` enum is declared at the crate root and
is not part of the Windows module excerpt.  The spec (§3) describes it as "an
enumerated, platform-independent identity for a physical key ... representable
in a single byte".  The variants listed here are exactly those referenced by
the Windows module source (`parse_scan_code`, `try_resolve` and the modifier
matches in `callback_proc`); `key_code as u8` is the declaration-order
discriminant, modelled by the derived `KeyCode.toCtorIdx`. -/
inductive KeyCode where
  | Escape
  | Digit1
  | Digit2
  | Digit3
  | Digit4
  | Digit5
  | Digit6
  | Digit7
  | Digit8
  | Digit9
  | Digit0
  | Minus
  | Equal
  | Backspace
  | Tab
  | KeyQ
  | KeyW
  | KeyE
  | KeyR
  | KeyT
  | KeyY
  | KeyU
  | KeyI
  | KeyO
  | KeyP
  | BracketLeft
  | BracketRight
  | Enter
  | ControlLeft
  | KeyA
  | KeyS
  | KeyD
  | KeyF
  | KeyG
  | KeyH
  | KeyJ
  | KeyK
  | KeyL
  | Semicolon
  | Quote
  | Backquote
  | ShiftLeft
  | Backslash
  | KeyZ
  | KeyX
  | KeyC
  | KeyV
  | KeyB
  | KeyN
  | KeyM
  | Comma
  | Period
  | Slash
  | ShiftRight
  | NumpadMultiply
  | AltLeft
  | Space
  | CapsLock
  | F1
  | F2
  | F3
  | F4
  | F5
  | F6
  | F7
  | F8
  | F9
  | F10
  | Pause
  | ScrollLock
  | Numpad7
  | Numpad8
  | Numpad9
  | NumpadSubtract
  | Numpad4
  | Numpad5
  | Numpad6
  | NumpadAdd
  | Numpad1
  | Numpad2
  | Numpad3
  | Numpad0
  | NumpadDecimal
  | PrintScreen
  | IntlBackslash
  | F11
  | F12
  | NumpadEqual
  | F13
  | F14
  | F15
  | F16
  | F17
  | F18
  | F19
  | F20
  | F21
  | F22
  | F23
  | F24
  | KanaMode
  | Lang2
  | Lang1
  | IntlRo
  | Lang4
  | Lang3
  | Convert
  | NonConvert
  | IntlYen
  | NumpadComma
  | Undo
  | Paste
  | MediaTrackPrevious
  | Cut
  | Copy
  | MediaTrackNext
  | NumpadEnter
  | ControlRight
  | LaunchMail
  | AudioVolumeMute
  | LaunchApp2
  | MediaPlayPause
  | MediaStop
  | Eject
  | AudioVolumeDown
  | AudioVolumeUp
  | BrowserHome
  | NumpadDivide
  | AltRight
  | Help
  | NumLock
  | Home
  | ArrowUp
  | PageUp
  | ArrowLeft
  | ArrowRight
  | End
  | ArrowDown
  | PageDown
  | Insert
  | Delete
  | MetaLeft
  | MetaRight
  | ContextMenu
  | Power
  | Sleep
  | WakeUp
  | BrowserSearch
  | BrowserFavorites
  | BrowserRefresh
  | BrowserStop
  | BrowserForward
  | BrowserBack
  | LaunchApp1
  | MediaSelect
deriving DecidableEq

/-- Modelled from the spec: `Modifiers` is declared at the crate root, outside
the excerpt; the spec (§3) defines it as "a bit-set over {ALT, CONTROL, META,
SHIFT}". Each flag is one field. -/
structure Modifiers where
  alt : Bool
  control : Bool
  meta : Bool
  shift : Bool
deriving DecidableEq

/-- `Modifiers::empty()`: no bits set. -/
def Modifiers.empty : Modifiers := ⟨false, false, false, false⟩

/-- The `Modifiers::ALT` flag constant. -/
def Modifiers.ALT : Modifiers := ⟨true, false, false, false⟩

/-- The `Modifiers::CONTROL` flag constant. -/
def Modifiers.CONTROL : Modifiers := ⟨false, true, false, false⟩

/-- The `Modifiers::META` flag constant. -/
def Modifiers.META : Modifiers := ⟨false, false, true, false⟩

/-- The `Modifiers::SHIFT` flag constant. -/
def Modifiers.SHIFT : Modifiers := ⟨false, false, false, true⟩

/-- bitflags `insert`: set all bits of `other` (bitwise or). -/
def Modifiers.insert (m other : Modifiers) : Modifiers :=
  ⟨m.alt || other.alt, m.control || other.control, m.meta || other.meta,
    m.shift || other.shift⟩

/-- bitflags `remove`: clear all bits of `other`. -/
def Modifiers.remove (m other : Modifiers) : Modifiers :=
  ⟨m.alt && !other.alt, m.control && !other.control, m.meta && !other.meta,
    m.shift && !other.shift⟩

/-- Modelled from the spec: `Hotkey` is declared at the crate root, outside the
excerpt; the spec (§3) defines it as "an immutable value (KeyCode, Modifiers);
equality/hash is structural". -/
structure Hotkey where
  key_code : KeyCode
  modifiers : Modifiers
deriving DecidableEq

/-- The scan-code table (lines 79-253): PS/2 scan code set 1 (with the extended
bit folded in as an `0xE000` offset) to canonical `KeyCode`.  The source's
161-arm literal `match` is written as an equality-test chain, one test per
match arm in source order; the keys are pairwise distinct, so the chain
computes exactly the same partial function. -/
def parse_scan_code (value : Nat) : Option KeyCode :=
  if value = 0x0001 then some .Escape
  else if value = 0x0002 then some .Digit1
  else if value = 0x0003 then some .Digit2
  else if value = 0x0004 then some .Digit3
  else if value = 0x0005 then some .Digit4
  else if value = 0x0006 then some .Digit5
  else if value = 0x0007 then some .Digit6
  else if value = 0x0008 then some .Digit7
  else if value = 0x0009 then some .Digit8
  else if value = 0x000A then some .Digit9
  else if value = 0x000B then some .Digit0
  else if value = 0x000C then some .Minus
  else if value = 0x000D then some .Equal
  else if value = 0x000E then some .Backspace
  else if value = 0x000F then some .Tab
  else if value = 0x0010 then some .KeyQ
  else if value = 0x0011 then some .KeyW
  else if value = 0x0012 then some .KeyE
  else if value = 0x0013 then some .KeyR
  else if value = 0x0014 then some .KeyT
  else if value = 0x0015 then some .KeyY
  else if value = 0x0016 then some .KeyU
  else if value = 0x0017 then some .KeyI
  else if value = 0x0018 then some .KeyO
  else if value = 0x0019 then some .KeyP
  else if value = 0x001A then some .BracketLeft
  else if value = 0x001B then some .BracketRight
  else if value = 0x001C then some .Enter
  else if value = 0x001D then some .ControlLeft
  else if value = 0x001E then some .KeyA
  else if value = 0x001F then some .KeyS
  else if value = 0x0020 then some .KeyD
  else if value = 0x0021 then some .KeyF
  else if value = 0x0022 then some .KeyG
  else if value = 0x0023 then some .KeyH
  else if value = 0x0024 then some .KeyJ
  else if value = 0x0025 then some .KeyK
  else if value = 0x0026 then some .KeyL
  else if value = 0x0027 then some .Semicolon
  else if value = 0x0028 then some .Quote
  else if value = 0x0029 then some .Backquote
  else if value = 0x002A then some .ShiftLeft
  else if value = 0x002B then some .Backslash
  else if value = 0x002C then some .KeyZ
  else if value = 0x002D then some .KeyX
  else if value = 0x002E then some .KeyC
  else if value = 0x002F then some .KeyV
  else if value = 0x0030 then some .KeyB
  else if value = 0x0031 then some .KeyN
  else if value = 0x0032 then some .KeyM
  else if value = 0x0033 then some .Comma
  else if value = 0x0034 then some .Period
  else if value = 0x0035 then some .Slash
  else if value = 0x0036 then some .ShiftRight
  else if value = 0x0037 then some .NumpadMultiply
  else if value = 0x0038 then some .AltLeft
  else if value = 0x0039 then some .Space
  else if value = 0x003A then some .CapsLock
  else if value = 0x003B then some .F1
  else if value = 0x003C then some .F2
  else if value = 0x003D then some .F3
  else if value = 0x003E then some .F4
  else if value = 0x003F then some .F5
  else if value = 0x0040 then some .F6
  else if value = 0x0041 then some .F7
  else if value = 0x0042 then some .F8
  else if value = 0x0043 then some .F9
  else if value = 0x0044 then some .F10
  else if value = 0x0045 then some .Pause
  else if value = 0x0046 then some .ScrollLock
  else if value = 0x0047 then some .Numpad7
  else if value = 0x0048 then some .Numpad8
  else if value = 0x0049 then some .Numpad9
  else if value = 0x004A then some .NumpadSubtract
  else if value = 0x004B then some .Numpad4
  else if value = 0x004C then some .Numpad5
  else if value = 0x004D then some .Numpad6
  else if value = 0x004E then some .NumpadAdd
  else if value = 0x004F then some .Numpad1
  else if value = 0x0050 then some .Numpad2
  else if value = 0x0051 then some .Numpad3
  else if value = 0x0052 then some .Numpad0
  else if value = 0x0053 then some .NumpadDecimal
  else if value = 0x0054 then some .PrintScreen
  else if value = 0x0056 then some .IntlBackslash
  else if value = 0x0057 then some .F11
  else if value = 0x0058 then some .F12
  else if value = 0x0059 then some .NumpadEqual
  else if value = 0x0064 then some .F13
  else if value = 0x0065 then some .F14
  else if value = 0x0066 then some .F15
  else if value = 0x0067 then some .F16
  else if value = 0x0068 then some .F17
  else if value = 0x0069 then some .F18
  else if value = 0x006A then some .F19
  else if value = 0x006B then some .F20
  else if value = 0x006C then some .F21
  else if value = 0x006D then some .F22
  else if value = 0x006E then some .F23
  else if value = 0x0070 then some .KanaMode
  else if value = 0x0071 then some .Lang2
  else if value = 0x0072 then some .Lang1
  else if value = 0x0073 then some .IntlRo
  else if value = 0x0076 then some .F24
  else if value = 0x0077 then some .Lang4
  else if value = 0x0078 then some .Lang3
  else if value = 0x0079 then some .Convert
  else if value = 0x007B then some .NonConvert
  else if value = 0x007D then some .IntlYen
  else if value = 0x007E then some .NumpadComma
  else if value = 0xE008 then some .Undo
  else if value = 0xE00A then some .Paste
  else if value = 0xE010 then some .MediaTrackPrevious
  else if value = 0xE017 then some .Cut
  else if value = 0xE018 then some .Copy
  else if value = 0xE019 then some .MediaTrackNext
  else if value = 0xE01C then some .NumpadEnter
  else if value = 0xE01D then some .ControlRight
  else if value = 0xE01E then some .LaunchMail
  else if value = 0xE020 then some .AudioVolumeMute
  else if value = 0xE021 then some .LaunchApp2
  else if value = 0xE022 then some .MediaPlayPause
  else if value = 0xE024 then some .MediaStop
  else if value = 0xE02C then some .Eject
  else if value = 0xE02E then some .AudioVolumeDown
  else if value = 0xE030 then some .AudioVolumeUp
  else if value = 0xE032 then some .BrowserHome
  else if value = 0xE035 then some .NumpadDivide
  else if value = 0xE036 then some .ShiftRight
  else if value = 0xE037 then some .PrintScreen
  else if value = 0xE038 then some .AltRight
  else if value = 0xE03B then some .Help
  else if value = 0xE045 then some .NumLock
  else if value = 0xE046 then some .Pause
  else if value = 0xE047 then some .Home
  else if value = 0xE048 then some .ArrowUp
  else if value = 0xE049 then some .PageUp
  else if value = 0xE04B then some .ArrowLeft
  else if value = 0xE04D then some .ArrowRight
  else if value = 0xE04F then some .End
  else if value = 0xE050 then some .ArrowDown
  else if value = 0xE051 then some .PageDown
  else if value = 0xE052 then some .Insert
  else if value = 0xE053 then some .Delete
  else if value = 0xE05B then some .MetaLeft
  else if value = 0xE05C then some .MetaRight
  else if value = 0xE05D then some .ContextMenu
  else if value = 0xE05E then some .Power
  else if value = 0xE05F then some .Sleep
  else if value = 0xE063 then some .WakeUp
  else if value = 0xE065 then some .BrowserSearch
  else if value = 0xE066 then some .BrowserFavorites
  else if value = 0xE067 then some .BrowserRefresh
  else if value = 0xE068 then some .BrowserStop
  else if value = 0xE069 then some .BrowserForward
  else if value = 0xE06A then some .BrowserBack
  else if value = 0xE06B then some .LaunchApp1
  else if value = 0xE06C then some .LaunchMail
  else if value = 0xE06D then some .MediaSelect
  else if value = 0xE0F1 then some .Lang2
  else if value = 0xE0F2 then some .Lang1
  else none

/-- The raw scan codes accepted by `parse_scan_code`, i.e. the left-hand sides
of the match arms of the table (lines 79-253), in source order. -/
def scan_code_domain : List Nat :=
  [0x0001, 0x0002, 0x0003, 0x0004, 0x0005, 0x0006, 0x0007, 0x0008, 0x0009,
   0x000A, 0x000B, 0x000C, 0x000D, 0x000E, 0x000F, 0x0010, 0x0011, 0x0012,
   0x0013, 0x0014, 0x0015, 0x0016, 0x0017, 0x0018, 0x0019, 0x001A, 0x001B,
   0x001C, 0x001D, 0x001E, 0x001F, 0x0020, 0x0021, 0x0022, 0x0023, 0x0024,
   0x0025, 0x0026, 0x0027, 0x0028, 0x0029, 0x002A, 0x002B, 0x002C, 0x002D,
   0x002E, 0x002F, 0x0030, 0x0031, 0x0032, 0x0033, 0x0034, 0x0035, 0x0036,
   0x0037, 0x0038, 0x0039, 0x003A, 0x003B, 0x003C, 0x003D, 0x003E, 0x003F,
   0x0040, 0x0041, 0x0042, 0x0043, 0x0044, 0x0045, 0x0046, 0x0047, 0x0048,
   0x0049, 0x004A, 0x004B, 0x004C, 0x004D, 0x004E, 0x004F, 0x0050, 0x0051,
   0x0052, 0x0053, 0x0054, 0x0056, 0x0057, 0x0058, 0x0059, 0x0064, 0x0065,
   0x0066, 0x0067, 0x0068, 0x0069, 0x006A, 0x006B, 0x006C, 0x006D, 0x006E,
   0x0070, 0x0071, 0x0072, 0x0073, 0x0076, 0x0077, 0x0078, 0x0079, 0x007B,
   0x007D, 0x007E, 0xE008, 0xE00A, 0xE010, 0xE017, 0xE018, 0xE019, 0xE01C,
   0xE01D, 0xE01E, 0xE020, 0xE021, 0xE022, 0xE024, 0xE02C, 0xE02E, 0xE030,
   0xE032, 0xE035, 0xE036, 0xE037, 0xE038, 0xE03B, 0xE045, 0xE046, 0xE047,
   0xE048, 0xE049, 0xE04B, 0xE04D, 0xE04F, 0xE050, 0xE051, 0xE052, 0xE053,
   0xE05B, 0xE05C, 0xE05D, 0xE05E, 0xE05F, 0xE063, 0xE065, 0xE066, 0xE067,
   0xE068, 0xE069, 0xE06A, 0xE06B, 0xE06C, 0xE06D, 0xE0F1, 0xE0F2]

/-- The table outputs that are produced by more than one scan code: the
non-extended/extended twins `ShiftRight` (0x0036/0xE036), `PrintScreen`
(0x0054/0xE037), `Pause` (0x0045/0xE046), `Lang2` (0x0071/0xE0F1), `Lang1`
(0x0072/0xE0F2), and `LaunchMail` which appears twice in the extended range
(0xE01E/0xE06C). -/
def duplicated_scan_code_targets : List (Option KeyCode) :=
  [some .ShiftRight, some .PrintScreen, some .Pause, some .LaunchMail,
   some .Lang2, some .Lang1]

/-- The twelve scan codes of the table whose target `KeyCode` is shared with
another scan code (the preimages of `duplicated_scan_code_targets`):
0x0036/0xE036 (ShiftRight), 0x0054/0xE037 (PrintScreen), 0x0045/0xE046
(Pause), 0xE01E/0xE06C (LaunchMail), 0x0071/0xE0F1 (Lang2) and 0x0072/0xE0F2
(Lang1). -/
def duplicated_scan_codes : List Nat :=
  [0x0036, 0xE036, 0x0054, 0xE037, 0x0045, 0xE046,
   0xE01E, 0xE06C, 0x0071, 0xE0F1, 0x0072, 0xE0F2]

/-- A retraction of the scan-code table: the unique scan code producing each
`KeyCode` that has exactly one preimage in the table (the six duplicated
targets are mapped to `none`).  Used to certify that the table is injective
away from the duplicated targets by a linear, per-entry check instead of a
quadratic pairwise one. -/
def reverse_table (key_code : KeyCode) : Option Nat :=
  match key_code with
  | .Escape => some 0x0001
  | .Digit1 => some 0x0002
  | .Digit2 => some 0x0003
  | .Digit3 => some 0x0004
  | .Digit4 => some 0x0005
  | .Digit5 => some 0x0006
  | .Digit6 => some 0x0007
  | .Digit7 => some 0x0008
  | .Digit8 => some 0x0009
  | .Digit9 => some 0x000A
  | .Digit0 => some 0x000B
  | .Minus => some 0x000C
  | .Equal => some 0x000D
  | .Backspace => some 0x000E
  | .Tab => some 0x000F
  | .KeyQ => some 0x0010
  | .KeyW => some 0x0011
  | .KeyE => some 0x0012
  | .KeyR => some 0x0013
  | .KeyT => some 0x0014
  | .KeyY => some 0x0015
  | .KeyU => some 0x0016
  | .KeyI => some 0x0017
  | .KeyO => some 0x0018
  | .KeyP => some 0x0019
  | .BracketLeft => some 0x001A
  | .BracketRight => some 0x001B
  | .Enter => some 0x001C
  | .ControlLeft => some 0x001D
  | .KeyA => some 0x001E
  | .KeyS => some 0x001F
  | .KeyD => some 0x0020
  | .KeyF => some 0x0021
  | .KeyG => some 0x0022
  | .KeyH => some 0x0023
  | .KeyJ => some 0x0024
  | .KeyK => some 0x0025
  | .KeyL => some 0x0026
  | .Semicolon => some 0x0027
  | .Quote => some 0x0028
  | .Backquote => some 0x0029
  | .ShiftLeft => some 0x002A
  | .Backslash => some 0x002B
  | .KeyZ => some 0x002C
  | .KeyX => some 0x002D
  | .KeyC => some 0x002E
  | .KeyV => some 0x002F
  | .KeyB => some 0x0030
  | .KeyN => some 0x0031
  | .KeyM => some 0x0032
  | .Comma => some 0x0033
  | .Period => some 0x0034
  | .Slash => some 0x0035
  | .NumpadMultiply => some 0x0037
  | .AltLeft => some 0x0038
  | .Space => some 0x0039
  | .CapsLock => some 0x003A
  | .F1 => some 0x003B
  | .F2 => some 0x003C
  | .F3 => some 0x003D
  | .F4 => some 0x003E
  | .F5 => some 0x003F
  | .F6 => some 0x0040
  | .F7 => some 0x0041
  | .F8 => some 0x0042
  | .F9 => some 0x0043
  | .F10 => some 0x0044
  | .ScrollLock => some 0x0046
  | .Numpad7 => some 0x0047
  | .Numpad8 => some 0x0048
  | .Numpad9 => some 0x0049
  | .NumpadSubtract => some 0x004A
  | .Numpad4 => some 0x004B
  | .Numpad5 => some 0x004C
  | .Numpad6 => some 0x004D
  | .NumpadAdd => some 0x004E
  | .Numpad1 => some 0x004F
  | .Numpad2 => some 0x0050
  | .Numpad3 => some 0x0051
  | .Numpad0 => some 0x0052
  | .NumpadDecimal => some 0x0053
  | .IntlBackslash => some 0x0056
  | .F11 => some 0x0057
  | .F12 => some 0x0058
  | .NumpadEqual => some 0x0059
  | .F13 => some 0x0064
  | .F14 => some 0x0065
  | .F15 => some 0x0066
  | .F16 => some 0x0067
  | .F17 => some 0x0068
  | .F18 => some 0x0069
  | .F19 => some 0x006A
  | .F20 => some 0x006B
  | .F21 => some 0x006C
  | .F22 => some 0x006D
  | .F23 => some 0x006E
  | .KanaMode => some 0x0070
  | .IntlRo => some 0x0073
  | .F24 => some 0x0076
  | .Lang4 => some 0x0077
  | .Lang3 => some 0x0078
  | .Convert => some 0x0079
  | .NonConvert => some 0x007B
  | .IntlYen => some 0x007D
  | .NumpadComma => some 0x007E
  | .Undo => some 0xE008
  | .Paste => some 0xE00A
  | .MediaTrackPrevious => some 0xE010
  | .Cut => some 0xE017
  | .Copy => some 0xE018
  | .MediaTrackNext => some 0xE019
  | .NumpadEnter => some 0xE01C
  | .ControlRight => some 0xE01D
  | .AudioVolumeMute => some 0xE020
  | .LaunchApp2 => some 0xE021
  | .MediaPlayPause => some 0xE022
  | .MediaStop => some 0xE024
  | .Eject => some 0xE02C
  | .AudioVolumeDown => some 0xE02E
  | .AudioVolumeUp => some 0xE030
  | .BrowserHome => some 0xE032
  | .NumpadDivide => some 0xE035
  | .AltRight => some 0xE038
  | .Help => some 0xE03B
  | .NumLock => some 0xE045
  | .Home => some 0xE047
  | .ArrowUp => some 0xE048
  | .PageUp => some 0xE049
  | .ArrowLeft => some 0xE04B
  | .ArrowRight => some 0xE04D
  | .End => some 0xE04F
  | .ArrowDown => some 0xE050
  | .PageDown => some 0xE051
  | .Insert => some 0xE052
  | .Delete => some 0xE053
  | .MetaLeft => some 0xE05B
  | .MetaRight => some 0xE05C
  | .ContextMenu => some 0xE05D
  | .Power => some 0xE05E
  | .Sleep => some 0xE05F
  | .WakeUp => some 0xE063
  | .BrowserSearch => some 0xE065
  | .BrowserFavorites => some 0xE066
  | .BrowserRefresh => some 0xE067
  | .BrowserStop => some 0xE068
  | .BrowserForward => some 0xE069
  | .BrowserBack => some 0xE06A
  | .LaunchApp1 => some 0xE06B
  | .MediaSelect => some 0xE06D
  | _ => none

/-- `key_idx` (lines 377-381): byte index and bit mask into the key-state
bitset for a key code; `key_code as u8` is the declaration-order discriminant
`KeyCode.toCtorIdx`. -/
def key_idx (key_code : KeyCode) : Nat × Nat :=
  let value := KeyCode.toCtorIdx key_code
  (value / 8, 1 <<< (value % 8))

/-- The hook-thread `State` (lines 63-70) restricted to its pure fields: the
native `hook` handle and the `events` sender are OS/channel resources; the
event sent on `events` is instead returned explicitly by `processEvent`.
`key_state: [u8; 256 / 8]` is modelled as a list of bytes (length 32 in the
initial state). -/
structure State where
  modifiers : Modifiers
  key_state : List Nat
deriving DecidableEq

/-- A native keyboard notification as seen by `callback_proc` after the scan
code has been folded with the extended bit (lines 283-288 / 339-344) or
recovered from the virtual key code: `down` for `WM_KEYDOWN`/`WM_SYSKEYDOWN`,
`up` for `WM_KEYUP`/`WM_SYSKEYUP`. -/
inductive KeyEvent where
  | down (scan_code : Nat)
  | up (scan_code : Nat)
deriving DecidableEq

/-- The `match key_code` of the key-down path (lines 303-317): pressing a
modifier key sets the corresponding `Modifiers` bit, left/right variants
collapsing onto the same bit. -/
def modifier_down_update (key_code : KeyCode) (m : Modifiers) : Modifiers :=
  match key_code with
  | .AltLeft | .AltRight => m.insert Modifiers.ALT
  | .ControlLeft | .ControlRight => m.insert Modifiers.CONTROL
  | .MetaLeft | .MetaRight => m.insert Modifiers.META
  | .ShiftLeft | .ShiftRight => m.insert Modifiers.SHIFT
  | _ => m

/-- The `match key_code` of the key-up path (lines 350-364): releasing a
modifier key clears the corresponding `Modifiers` bit. -/
def modifier_up_update (key_code : KeyCode) (m : Modifiers) : Modifiers :=
  match key_code with
  | .AltLeft | .AltRight => m.remove Modifiers.ALT
  | .ControlLeft | .ControlRight => m.remove Modifiers.CONTROL
  | .MetaLeft | .MetaRight => m.remove Modifiers.META
  | .ShiftLeft | .ShiftRight => m.remove Modifiers.SHIFT
  | _ => m

/-- The per-event body of `callback_proc` (lines 264-366) for `code >= 0`,
returning the updated hook-thread state and the `Hotkey` sent to the
dispatcher queue, if any.  On key-down (lines 290-319): if the scan code is
recognized and the key's bit is clear, the bit is set, a `Hotkey` composed of
the key code and the *current* modifiers is sent, and only then is the
modifier bit updated.  On key-up (lines 346-365): the bit is cleared with
`&= !bit` (on bytes, `x &&& (255 ^^^ bit)`), the modifier bit is cleared, and
nothing is sent. -/
def processEvent (state : State) (event : KeyEvent) : State × Option Hotkey :=
  match event with
  | .down scan_code =>
    match parse_scan_code scan_code with
    | some key_code =>
      let ib := key_idx key_code
      if state.key_state.getD ib.1 0 &&& ib.2 == 0 then
        let key_state1 :=
          state.key_state.set ib.1 (state.key_state.getD ib.1 0 ||| ib.2)
        let sent : Hotkey := { key_code := key_code, modifiers := state.modifiers }
        ({ modifiers := modifier_down_update key_code state.modifiers,
           key_state := key_state1 }, some sent)
      else
        (state, none)
    | none => (state, none)
  | .up scan_code =>
    match parse_scan_code scan_code with
    | some key_code =>
      let ib := key_idx key_code
      let key_state1 :=
        state.key_state.set ib.1 (state.key_state.getD ib.1 0 &&& (255 ^^^ ib.2))
      ({ modifiers := modifier_up_update key_code state.modifiers,
         key_state := key_state1 }, none)
    | none => (state, none)

/-- Folding `processEvent` over a sequence of native notifications, keeping
only the final hook-thread state. -/
def processEvents (state : State) (events : List KeyEvent) : State :=
  events.foldl (fun s e => (processEvent s e).1) state

/-- Folding `processEvent` over a sequence of native notifications, collecting
the `Hotkey` values sent to the dispatcher queue in order. -/
def processTrace (state : State) (events : List KeyEvent) : State × List Hotkey :=
  match events with
  | [] => (state, [])
  | e :: rest =>
    let next := processEvent state e
    let final := processTrace next.1 rest
    (final.1, next.2.toList ++ final.2)

/-- §4.2 `is_down`: the key-state-bit test `state.key_state[idx] & bit == 0`
(lines 292/348), negated. -/
def is_down (state : State) (key_code : KeyCode) : Bool :=
  !(state.key_state.getD (key_idx key_code).1 0 &&& (key_idx key_code).2 == 0)

/-- The hook-thread state as initialized in `Hook::new` (lines 420-425):
empty modifiers and the all-zero `[u8; 256 / 8]` key-state array. -/
def initState : State :=
  { modifiers := Modifiers.empty, key_state := List.replicate 32 0 }

/-- Modelled from the spec: the crate-level `Error` enum is declared outside
the excerpt; §7 lists the kinds relevant here (`AlreadyRegistered`,
`NotRegistered`, `UnmatchedPreference`, and the platform-failure wrapper,
whose payload is left abstract). -/
inductive Error where
  | AlreadyRegistered
  | NotRegistered
  | UnmatchedPreference
  | Platform
deriving DecidableEq

/-- Modelled from the spec: `ConsumePreference` is declared at the crate root,
outside the excerpt.  §4.6/§7 describe a requested consumption mode with a
mandatory-consumption variant (`MustConsume`, which this observer-only
mechanism cannot satisfy) among non-mandatory alternatives. -/
inductive ConsumePreference where
  | NoPreference
  | PreferConsume
  | PreferNoConsume
  | MustConsume
deriving DecidableEq

/-- The shared registry `HashMap<Hotkey, Callback>` (line 52) modelled as a
partial map from hotkeys to callbacks. -/
def Registry (α : Type) : Type := Hotkey → Option α

/-- `Hook::register` (lines 465-475): a vacant entry is filled with the new
callback and the call succeeds; an occupied entry fails with
`AlreadyRegistered` and the map is left untouched. -/
def register (hotkeys : Registry α) (hotkey : Hotkey) (callback : α) :
    Registry α × Except Error Unit :=
  match hotkeys hotkey with
  | none => (fun h => if h = hotkey then some callback else hotkeys h, .ok ())
  | some _ => (hotkeys, .error .AlreadyRegistered)

/-- `Hook::unregister` (lines 477-483): a present entry is removed and the
call succeeds; an absent entry fails with `NotRegistered` and the map is left
untouched. -/
def unregister (hotkeys : Registry α) (hotkey : Hotkey) :
    Registry α × Except Error Unit :=
  match hotkeys hotkey with
  | some _ => (fun h => if h = hotkey then none else hotkeys h, .ok ())
  | none => (hotkeys, .error .NotRegistered)

/-- The resource-allocating actions of `Hook::new` (lines 389-456), in program
order: allocating the shared registry, spawning the hook-engine thread, and
spawning the dispatcher thread. -/
inductive NewStep where
  | allocateRegistry
  | spawnHookEngineThread
  | spawnDispatcherThread
deriving DecidableEq

/-- `Hook::new` (lines 384-397) up to thread creation: the
`matches!(consume, MustConsume)` check comes first and returns
`UnmatchedPreference` before the registry allocation and the two
`thread::spawn` calls; any other preference performs those three actions in
order. -/
def hook_new_steps (consume : ConsumePreference) : List NewStep × Option Error :=
  match consume with
  | .MustConsume => ([], some .UnmatchedPreference)
  | _ => ([.allocateRegistry, .spawnHookEngineThread, .spawnDispatcherThread], none)

/-- The key-code-to-scan-code table at the start of `Hook::try_resolve`
(lines 485-539), used before the OS translation calls (`MapVirtualKeyW`,
which is outside the scope of this embedding). -/
def try_resolve_scan_code (key_code : KeyCode) : Option Nat :=
  match key_code with
  | .Backquote => some 0x0029
  | .Backslash => some 0x002B
  | .BracketLeft => some 0x001A
  | .BracketRight => some 0x001B
  | .Comma => some 0x0033
  | .Digit1 => some 0x0002
  | .Digit2 => some 0x0003
  | .Digit3 => some 0x0004
  | .Digit4 => some 0x0005
  | .Digit5 => some 0x0006
  | .Digit6 => some 0x0007
  | .Digit7 => some 0x0008
  | .Digit8 => some 0x0009
  | .Digit9 => some 0x000A
  | .Digit0 => some 0x000B
  | .Equal => some 0x000D
  | .IntlBackslash => some 0x0056
  | .IntlRo => some 0x0073
  | .IntlYen => some 0x007D
  | .KeyA => some 0x001E
  | .KeyB => some 0x0030
  | .KeyC => some 0x002E
  | .KeyD => some 0x0020
  | .KeyE => some 0x0012
  | .KeyF => some 0x0021
  | .KeyG => some 0x0022
  | .KeyH => some 0x0023
  | .KeyI => some 0x0017
  | .KeyJ => some 0x0024
  | .KeyK => some 0x0025
  | .KeyL => some 0x0026
  | .KeyM => some 0x0032
  | .KeyN => some 0x0031
  | .KeyO => some 0x0018
  | .KeyP => some 0x0019
  | .KeyQ => some 0x0010
  | .KeyR => some 0x0013
  | .KeyS => some 0x001F
  | .KeyT => some 0x0014
  | .KeyU => some 0x0016
  | .KeyV => some 0x002F
  | .KeyW => some 0x0011
  | .KeyX => some 0x002D
  | .KeyY => some 0x0015
  | .KeyZ => some 0x002C
  | .Minus => some 0x000C
  | .Period => some 0x0034
  | .Quote => some 0x0028
  | .Semicolon => some 0x0027
  | .Slash => some 0x0035
  | _ => none

/-- The modifier-tracking invariant that actually holds of the hook-thread
state: the key-state array keeps its 32 bytes, and whenever a `Modifiers` bit
is set, at least one of the two corresponding physical modifier keys is held.
(The converse direction fails, see the counterexample for C2.) -/
def ModifiersConsistent (s : State) : Prop :=
  s.key_state.length = 32 ∧
  (s.modifiers.alt = true → is_down s .AltLeft = true ∨ is_down s .AltRight = true) ∧
  (s.modifiers.control = true →
    is_down s .ControlLeft = true ∨ is_down s .ControlRight = true) ∧
  (s.modifiers.meta = true → is_down s .MetaLeft = true ∨ is_down s .MetaRight = true) ∧
  (s.modifiers.shift = true → is_down s .ShiftLeft = true ∨ is_down s .ShiftRight = true)

/-! ### Helper lemmas: constructor indices, bit masks and byte-array access -/

theorem toCtorIdx_injective {k k' : KeyCode}
    (h : KeyCode.toCtorIdx k = KeyCode.toCtorIdx k') : k = k' := by
  have h1 := KeyCode.ofNat_toCtorIdx k
  have h2 := KeyCode.ofNat_toCtorIdx k'
  rw [← h1, ← h2, h]

theorem key_idx_fst (k : KeyCode) : (key_idx k).1 = KeyCode.toCtorIdx k / 8 := rfl

theorem key_idx_snd (k : KeyCode) :
    (key_idx k).2 = 2 ^ (KeyCode.toCtorIdx k % 8) := by
  simp [key_idx, Nat.shiftLeft_eq]

theorem key_idx_snd_pos (k : KeyCode) : (key_idx k).2 ≠ 0 := by
  rw [key_idx_snd]
  exact (Nat.two_pow_pos _).ne'

theorem mod_ne_of_ne_of_div_eq {k k' : KeyCode} (h : k ≠ k')
    (hfst : (key_idx k).1 = (key_idx k').1) :
    KeyCode.toCtorIdx k % 8 ≠ KeyCode.toCtorIdx k' % 8 := by
  intro hmod
  rw [key_idx_fst, key_idx_fst] at hfst
  exact h (toCtorIdx_injective (by omega))

theorem two_pow_and_two_pow_of_ne {r r' : Nat} (h : r ≠ r') :
    2 ^ r &&& 2 ^ r' = 0 := by
  apply Nat.eq_of_testBit_eq
  intro i
  rw [Nat.testBit_and, Nat.zero_testBit, Nat.testBit_two_pow, Nat.testBit_two_pow]
  by_cases h1 : r = i <;> by_cases h2 : r' = i <;> simp_all

theorem mask_and_two_pow_self {r : Nat} (hr : r < 8) :
    (255 ^^^ 2 ^ r) &&& 2 ^ r = 0 := by
  apply Nat.eq_of_testBit_eq
  intro i
  have h255 : (255 : Nat) = 2 ^ 8 - 1 := by norm_num
  rw [Nat.testBit_and, Nat.testBit_xor, Nat.zero_testBit, h255,
    Nat.testBit_two_pow_sub_one, Nat.testBit_two_pow]
  by_cases h1 : r = i <;> simp_all

theorem mask_and_two_pow_of_ne {r r' : Nat} (hr : r < 8) (h : r' ≠ r) :
    (255 ^^^ 2 ^ r') &&& 2 ^ r = 2 ^ r := by
  apply Nat.eq_of_testBit_eq
  intro i
  have h255 : (255 : Nat) = 2 ^ 8 - 1 := by norm_num
  rw [Nat.testBit_and, Nat.testBit_xor, h255, Nat.testBit_two_pow_sub_one,
    Nat.testBit_two_pow, Nat.testBit_two_pow]
  by_cases h1 : r = i <;> by_cases h2 : r' = i <;> simp_all

theorem lor_ne_zero_right {x y : Nat} (h : y ≠ 0) : x ||| y ≠ 0 := by
  intro h0
  apply h
  apply Nat.eq_of_testBit_eq
  intro i
  have hbit := congrArg (fun n => Nat.testBit n i) h0
  simp only [Nat.testBit_or, Nat.zero_testBit, Bool.or_eq_false_iff] at hbit
  simp [hbit.2]

theorem lor_ne_zero_left {x y : Nat} (h : x ≠ 0) : x ||| y ≠ 0 := by
  rw [Nat.or_comm]
  exact lor_ne_zero_right h

theorem getD_set_self {l : List Nat} {i v : Nat} (h : i < l.length) :
    (l.set i v).getD i 0 = v := by
  simp [List.getD_eq_getElem?_getD, List.getElem?_set_self h]

theorem getD_set_ne {l : List Nat} {i j v : Nat} (h : i ≠ j) :
    (l.set i v).getD j 0 = l.getD j 0 := by
  simp [List.getD_eq_getElem?_getD, List.getElem?_set_ne h]

/-- Setting one key's bit never clears another key's bit of the bitset. -/
theorem test_after_or {l : List Nat} {k k' : KeyCode}
    (h : l.getD (key_idx k').1 0 &&& (key_idx k').2 ≠ 0) :
    (l.set (key_idx k).1
        (l.getD (key_idx k).1 0 ||| (key_idx k).2)).getD (key_idx k').1 0 &&&
      (key_idx k').2 ≠ 0 := by
  by_cases hi : (key_idx k).1 = (key_idx k').1
  · by_cases hlen : (key_idx k).1 < l.length
    · rw [hi] at hlen ⊢
      rw [getD_set_self hlen, ← hi, Nat.and_distrib_right]
      rw [hi]
      exact lor_ne_zero_left h
    · rw [List.set_eq_of_length_le (by omega)]
      exact h
  · rw [getD_set_ne hi]
    exact h

/-- After setting a key's own bit (within the array bounds), its test reads
nonzero. -/
theorem test_after_or_self {l : List Nat} {k : KeyCode}
    (hlen : (key_idx k).1 < l.length) :
    (l.set (key_idx k).1
        (l.getD (key_idx k).1 0 ||| (key_idx k).2)).getD (key_idx k).1 0 &&&
      (key_idx k).2 ≠ 0 := by
  rw [getD_set_self hlen, Nat.and_distrib_right, Nat.and_self]
  exact lor_ne_zero_right (key_idx_snd_pos k)

/-- Clearing a key's bit with `&= !bit` never sets another key's bit, and
clears exactly the key's own bit position. -/
theorem test_after_clear_other {l : List Nat} {k k' : KeyCode} (hne : k ≠ k')
    (h : l.getD (key_idx k').1 0 &&& (key_idx k').2 ≠ 0) :
    (l.set (key_idx k).1
        (l.getD (key_idx k).1 0 &&& (255 ^^^ (key_idx k).2))).getD
        (key_idx k').1 0 &&& (key_idx k').2 ≠ 0 := by
  by_cases hi : (key_idx k).1 = (key_idx k').1
  · by_cases hlen : (key_idx k).1 < l.length
    · rw [hi] at hlen ⊢
      rw [getD_set_self hlen, ← hi, Nat.and_assoc]
      have hmask : (255 ^^^ (key_idx k).2) &&& (key_idx k').2 = (key_idx k').2 := by
        rw [key_idx_snd, key_idx_snd]
        exact mask_and_two_pow_of_ne (Nat.mod_lt _ (by omega))
          (mod_ne_of_ne_of_div_eq hne hi)
      rw [hmask, hi]
      exact h
    · rw [List.set_eq_of_length_le (by omega)]
      exact h
  · rw [getD_set_ne hi]
    exact h

/-- After clearing a key's own bit, its test reads zero — whether or not the
index is within the array and whether or not the bit was set before. -/
theorem test_after_clear_self (l : List Nat) (k : KeyCode) :
    (l.set (key_idx k).1
        (l.getD (key_idx k).1 0 &&& (255 ^^^ (key_idx k).2))).getD
        (key_idx k).1 0 &&& (key_idx k).2 = 0 := by
  have hmask : (255 ^^^ (key_idx k).2) &&& (key_idx k).2 = 0 := by
    rw [key_idx_snd]
    exact mask_and_two_pow_self (Nat.mod_lt _ (by omega))
  by_cases hlen : (key_idx k).1 < l.length
  · rw [getD_set_self hlen, Nat.and_assoc, hmask, Nat.and_zero]
  · rw [List.set_eq_of_length_le (by omega)]
    rw [List.getD_eq_getElem?_getD, List.getElem?_eq_none (by omega)]
    simp

/-- The one-byte size assertion (line 73): every `KeyCode` discriminant fits
in a `u8`. -/
theorem toCtorIdx_lt_256 : ∀ k : KeyCode, KeyCode.toCtorIdx k < 256 := by
  intro k
  cases k <;> decide

/-- Every key code's byte index fits the 32-byte key-state array; this is what
the one-byte size assertion (line 73) buys: discriminants are below 256, so
`value / 8 < 32`. -/
theorem key_idx_fst_lt_32 : ∀ k : KeyCode, (key_idx k).1 < 32 := by
  intro k
  have h := toCtorIdx_lt_256 k
  rw [key_idx_fst]
  omega

theorem is_down_iff {s : State} {k : KeyCode} :
    is_down s k = true ↔
      s.key_state.getD (key_idx k).1 0 &&& (key_idx k).2 ≠ 0 := by
  simp [is_down]

/-! ### Equation lemmas for the `callback_proc` step function -/

theorem processEvent_down_unrecognized {s : State} {sc : Nat}
    (hp : parse_scan_code sc = none) : processEvent s (.down sc) = (s, none) := by
  simp [processEvent, hp]

theorem processEvent_up_unrecognized {s : State} {sc : Nat}
    (hp : parse_scan_code sc = none) : processEvent s (.up sc) = (s, none) := by
  simp [processEvent, hp]

theorem processEvent_down_held {s : State} {sc : Nat} {k : KeyCode}
    (hp : parse_scan_code sc = some k) (hd : is_down s k = true) :
    processEvent s (.down sc) = (s, none) := by
  have hc : ¬(s.key_state[(key_idx k).1]?.getD 0 &&& (key_idx k).2 = 0) := by
    simpa [is_down] using hd
  simp [processEvent, hp, hc]

theorem processEvent_down_fresh {s : State} {sc : Nat} {k : KeyCode}
    (hp : parse_scan_code sc = some k) (hd : is_down s k = false) :
    processEvent s (.down sc) =
      ({ modifiers := modifier_down_update k s.modifiers,
         key_state := s.key_state.set (key_idx k).1
           (s.key_state.getD (key_idx k).1 0 ||| (key_idx k).2) },
       some { key_code := k, modifiers := s.modifiers }) := by
  have hc : s.key_state[(key_idx k).1]?.getD 0 &&& (key_idx k).2 = 0 := by
    simpa [is_down] using hd
  simp [processEvent, hp, hc]

theorem processEvent_up_recognized {s : State} {sc : Nat} {k : KeyCode}
    (hp : parse_scan_code sc = some k) :
    processEvent s (.up sc) =
      ({ modifiers := modifier_up_update k s.modifiers,
         key_state := s.key_state.set (key_idx k).1
           (s.key_state.getD (key_idx k).1 0 &&& (255 ^^^ (key_idx k).2)) },
       none) := by
  simp [processEvent, hp]

/-! ### Modifier bookkeeping facts (checked over all key codes and flag sets) -/

theorem down_update_alt : ∀ (k : KeyCode) (m : Modifiers),
    (modifier_down_update k m).alt = true →
      m.alt = true ∨ k = .AltLeft ∨ k = .AltRight := by
  intro k m h
  unfold modifier_down_update at h
  split at h <;>
    simp_all [Modifiers.insert, Modifiers.ALT, Modifiers.CONTROL,
      Modifiers.META, Modifiers.SHIFT]

theorem down_update_control : ∀ (k : KeyCode) (m : Modifiers),
    (modifier_down_update k m).control = true →
      m.control = true ∨ k = .ControlLeft ∨ k = .ControlRight := by
  intro k m h
  unfold modifier_down_update at h
  split at h <;>
    simp_all [Modifiers.insert, Modifiers.ALT, Modifiers.CONTROL,
      Modifiers.META, Modifiers.SHIFT]

theorem down_update_meta : ∀ (k : KeyCode) (m : Modifiers),
    (modifier_down_update k m).meta = true →
      m.meta = true ∨ k = .MetaLeft ∨ k = .MetaRight := by
  intro k m h
  unfold modifier_down_update at h
  split at h <;>
    simp_all [Modifiers.insert, Modifiers.ALT, Modifiers.CONTROL,
      Modifiers.META, Modifiers.SHIFT]

theorem down_update_shift : ∀ (k : KeyCode) (m : Modifiers),
    (modifier_down_update k m).shift = true →
      m.shift = true ∨ k = .ShiftLeft ∨ k = .ShiftRight := by
  intro k m h
  unfold modifier_down_update at h
  split at h <;>
    simp_all [Modifiers.insert, Modifiers.ALT, Modifiers.CONTROL,
      Modifiers.META, Modifiers.SHIFT]

theorem up_update_alt : ∀ (k : KeyCode) (m : Modifiers),
    (modifier_up_update k m).alt = true →
      m.alt = true ∧ ¬(k = .AltLeft ∨ k = .AltRight) := by
  intro k m h
  unfold modifier_up_update at h
  split at h <;>
    simp_all [Modifiers.remove, Modifiers.ALT, Modifiers.CONTROL,
      Modifiers.META, Modifiers.SHIFT]

theorem up_update_control : ∀ (k : KeyCode) (m : Modifiers),
    (modifier_up_update k m).control = true →
      m.control = true ∧ ¬(k = .ControlLeft ∨ k = .ControlRight) := by
  intro k m h
  unfold modifier_up_update at h
  split at h <;>
    simp_all [Modifiers.remove, Modifiers.ALT, Modifiers.CONTROL,
      Modifiers.META, Modifiers.SHIFT]

theorem up_update_meta : ∀ (k : KeyCode) (m : Modifiers),
    (modifier_up_update k m).meta = true →
      m.meta = true ∧ ¬(k = .MetaLeft ∨ k = .MetaRight) := by
  intro k m h
  unfold modifier_up_update at h
  split at h <;>
    simp_all [Modifiers.remove, Modifiers.ALT, Modifiers.CONTROL,
      Modifiers.META, Modifiers.SHIFT]

theorem up_update_shift : ∀ (k : KeyCode) (m : Modifiers),
    (modifier_up_update k m).shift = true →
      m.shift = true ∧ ¬(k = .ShiftLeft ∨ k = .ShiftRight) := by
  intro k m h
  unfold modifier_up_update at h
  split at h <;>
    simp_all [Modifiers.remove, Modifiers.ALT, Modifiers.CONTROL,
      Modifiers.META, Modifiers.SHIFT]

/-! ### Preservation of the modifier-tracking invariant -/

theorem consistent_component_down {s : State} {k a b : KeyCode}
    (hlen : s.key_state.length = 32)
    (hcase : is_down s a = true ∨ is_down s b = true ∨ k = a ∨ k = b) :
    is_down { modifiers := modifier_down_update k s.modifiers,
              key_state := s.key_state.set (key_idx k).1
                (s.key_state.getD (key_idx k).1 0 ||| (key_idx k).2) } a = true ∨
    is_down { modifiers := modifier_down_update k s.modifiers,
              key_state := s.key_state.set (key_idx k).1
                (s.key_state.getD (key_idx k).1 0 ||| (key_idx k).2) } b = true := by
  rcases hcase with h | h | rfl | rfl
  · left
    rw [is_down_iff]
    exact test_after_or (is_down_iff.mp h)
  · right
    rw [is_down_iff]
    exact test_after_or (is_down_iff.mp h)
  · left
    rw [is_down_iff]
    exact test_after_or_self (by rw [hlen]; exact key_idx_fst_lt_32 _)
  · right
    rw [is_down_iff]
    exact test_after_or_self (by rw [hlen]; exact key_idx_fst_lt_32 _)

theorem consistent_component_up {s : State} {k a b : KeyCode}
    (hna : k ≠ a) (hnb : k ≠ b)
    (hcase : is_down s a = true ∨ is_down s b = true) :
    is_down { modifiers := modifier_up_update k s.modifiers,
              key_state := s.key_state.set (key_idx k).1
                (s.key_state.getD (key_idx k).1 0 &&& (255 ^^^ (key_idx k).2)) } a =
        true ∨
    is_down { modifiers := modifier_up_update k s.modifiers,
              key_state := s.key_state.set (key_idx k).1
                (s.key_state.getD (key_idx k).1 0 &&& (255 ^^^ (key_idx k).2)) } b =
        true := by
  rcases hcase with h | h
  · left
    rw [is_down_iff]
    exact test_after_clear_other hna (is_down_iff.mp h)
  · right
    rw [is_down_iff]
    exact test_after_clear_other hnb (is_down_iff.mp h)

theorem processEvent_preserves_consistent (s : State) (e : KeyEvent)
    (h : ModifiersConsistent s) : ModifiersConsistent (processEvent s e).1 := by
  obtain ⟨hlen, halt, hctl, hmeta, hshift⟩ := h
  cases e with
  | down sc =>
    cases hp : parse_scan_code sc with
    | none =>
      rw [processEvent_down_unrecognized hp]
      exact ⟨hlen, halt, hctl, hmeta, hshift⟩
    | some k =>
      cases hd : is_down s k with
      | true =>
        rw [processEvent_down_held hp hd]
        exact ⟨hlen, halt, hctl, hmeta, hshift⟩
      | false =>
        rw [processEvent_down_fresh hp hd]
        refine ⟨by simpa using hlen, ?_, ?_, ?_, ?_⟩
        · intro ha
          refine consistent_component_down hlen ?_
          rcases down_update_alt k s.modifiers ha with hm | hk | hk
          · rcases halt hm with h1 | h1
            exacts [Or.inl h1, Or.inr (Or.inl h1)]
          · exact Or.inr (Or.inr (Or.inl hk))
          · exact Or.inr (Or.inr (Or.inr hk))
        · intro ha
          refine consistent_component_down hlen ?_
          rcases down_update_control k s.modifiers ha with hm | hk | hk
          · rcases hctl hm with h1 | h1
            exacts [Or.inl h1, Or.inr (Or.inl h1)]
          · exact Or.inr (Or.inr (Or.inl hk))
          · exact Or.inr (Or.inr (Or.inr hk))
        · intro ha
          refine consistent_component_down hlen ?_
          rcases down_update_meta k s.modifiers ha with hm | hk | hk
          · rcases hmeta hm with h1 | h1
            exacts [Or.inl h1, Or.inr (Or.inl h1)]
          · exact Or.inr (Or.inr (Or.inl hk))
          · exact Or.inr (Or.inr (Or.inr hk))
        · intro ha
          refine consistent_component_down hlen ?_
          rcases down_update_shift k s.modifiers ha with hm | hk | hk
          · rcases hshift hm with h1 | h1
            exacts [Or.inl h1, Or.inr (Or.inl h1)]
          · exact Or.inr (Or.inr (Or.inl hk))
          · exact Or.inr (Or.inr (Or.inr hk))
  | up sc =>
    cases hp : parse_scan_code sc with
    | none =>
      rw [processEvent_up_unrecognized hp]
      exact ⟨hlen, halt, hctl, hmeta, hshift⟩
    | some k =>
      rw [processEvent_up_recognized hp]
      refine ⟨by simpa using hlen, ?_, ?_, ?_, ?_⟩
      · intro ha
        obtain ⟨hm, hnk⟩ := up_update_alt k s.modifiers ha
        obtain ⟨hna, hnb⟩ := not_or.mp hnk
        exact consistent_component_up hna hnb (halt hm)
      · intro ha
        obtain ⟨hm, hnk⟩ := up_update_control k s.modifiers ha
        obtain ⟨hna, hnb⟩ := not_or.mp hnk
        exact consistent_component_up hna hnb (hctl hm)
      · intro ha
        obtain ⟨hm, hnk⟩ := up_update_meta k s.modifiers ha
        obtain ⟨hna, hnb⟩ := not_or.mp hnk
        exact consistent_component_up hna hnb (hmeta hm)
      · intro ha
        obtain ⟨hm, hnk⟩ := up_update_shift k s.modifiers ha
        obtain ⟨hna, hnb⟩ := not_or.mp hnk
        exact consistent_component_up hna hnb (hshift hm)

theorem initState_consistent : ModifiersConsistent initState := by
  constructor
  · rfl
  · refine ⟨?_, ?_, ?_, ?_⟩ <;> intro h <;> simp [initState, Modifiers.empty] at h

theorem processEvents_consistent (evs : List KeyEvent) :
    ModifiersConsistent (processEvents initState evs) := by
  suffices h : ∀ (s : State), ModifiersConsistent s →
      ModifiersConsistent (processEvents s evs) from h initState initState_consistent
  induction evs with
  | nil => intro s hs; exact hs
  | cons e rest ih =>
    intro s hs
    exact ih _ (processEvent_preserves_consistent s e hs)

/-! ### Claim C2 -/

/-- C2, corrected. The claimed "if and only if" fails (see
`modifier_bits_iff_counterexample`): releasing one variant clears the bit even
while the other variant is held.  What holds is the forward direction — after
any sequence of events from the initial state, a set Modifiers bit guarantees
at least one of the corresponding left/right keys is physically held — and
both concrete scenarios of the claim: CONTROL then A dispatches A with
modifiers = {CONTROL}, and CONTROL pressed and released followed by A alone
dispatches A with modifiers = {}. -/
theorem modifier_bits_one_sided_tracking :
    (∀ evs : List KeyEvent,
      ((processEvents initState evs).modifiers.alt = true →
        is_down (processEvents initState evs) .AltLeft = true ∨
        is_down (processEvents initState evs) .AltRight = true) ∧
      ((processEvents initState evs).modifiers.control = true →
        is_down (processEvents initState evs) .ControlLeft = true ∨
        is_down (processEvents initState evs) .ControlRight = true) ∧
      ((processEvents initState evs).modifiers.meta = true →
        is_down (processEvents initState evs) .MetaLeft = true ∨
        is_down (processEvents initState evs) .MetaRight = true) ∧
      ((processEvents initState evs).modifiers.shift = true →
        is_down (processEvents initState evs) .ShiftLeft = true ∨
        is_down (processEvents initState evs) .ShiftRight = true)) ∧
    (processTrace initState [.down 0x001D, .down 0x001E]).2 =
      [{ key_code := .ControlLeft, modifiers := Modifiers.empty },
       { key_code := .KeyA, modifiers := Modifiers.CONTROL }] ∧
    (processTrace initState [.down 0x001D, .up 0x001D, .down 0x001E]).2 =
      [{ key_code := .ControlLeft, modifiers := Modifiers.empty },
       { key_code := .KeyA, modifiers := Modifiers.empty }] := by
  refine ⟨fun evs => ?_, by decide, by decide⟩
  obtain ⟨-, h⟩ := processEvents_consistent evs
  exact h

/-- C2 witness: after pressing AltLeft, the ALT bit is set, so the theorem
yields that one of the Alt keys is held. -/
theorem modifier_bits_one_sided_tracking_witness :
    is_down (processEvents initState [KeyEvent.down 0x0038]) .AltLeft = true ∨
    is_down (processEvents initState [KeyEvent.down 0x0038]) .AltRight = true :=
  (modifier_bits_one_sided_tracking.1 [KeyEvent.down 0x0038]).1 (by decide)

/-- C2 counterexample: press AltLeft, press AltRight, release AltLeft.
AltRight is still physically held, yet the ALT bit is cleared — the "bit set
iff some variant held" claim is false. -/
theorem modifier_bits_iff_counterexample :
    is_down
      (processEvents initState
        [KeyEvent.down 0x0038, KeyEvent.down 0xE038, KeyEvent.up 0x0038])
      KeyCode.AltRight = true ∧
    (processEvents initState
      [KeyEvent.down 0x0038, KeyEvent.down 0xE038,
       KeyEvent.up 0x0038]).modifiers.alt = false := by decide

/-! ### Claim C3 -/

/-- C3, confirmed: while a key's state bit is set, a further key-down for it
returns the state unchanged and sends nothing; on the up-to-down transition
exactly one `Hotkey` is sent and the bit becomes set; and the bit stays set
under every event other than a key-up resolving to this key, so no further
event is sent for it until a matching key-up. -/
theorem repeated_key_down_idempotent :
    ∀ (s : State) (sc : Nat) (k : KeyCode), parse_scan_code sc = some k →
      (is_down s k = true → processEvent s (.down sc) = (s, none)) ∧
      (is_down s k = false → (key_idx k).1 < s.key_state.length →
        (processEvent s (.down sc)).2 =
          some { key_code := k, modifiers := s.modifiers } ∧
        is_down (processEvent s (.down sc)).1 k = true) ∧
      (∀ e : KeyEvent, is_down s k = true →
        (∀ sc', e = .up sc' → parse_scan_code sc' ≠ some k) →
        is_down (processEvent s e).1 k = true) := by
  intro s sc k hp
  refine ⟨fun hd => processEvent_down_held hp hd, fun hd hlen => ?_, ?_⟩
  · rw [processEvent_down_fresh hp hd]
    exact ⟨rfl, is_down_iff.mpr (test_after_or_self hlen)⟩
  · intro e hd hup
    cases e with
    | down sc' =>
      cases hp' : parse_scan_code sc' with
      | none => rw [processEvent_down_unrecognized hp']; exact hd
      | some k' =>
        cases hd' : is_down s k' with
        | true => rw [processEvent_down_held hp' hd']; exact hd
        | false =>
          rw [processEvent_down_fresh hp' hd']
          exact is_down_iff.mpr (test_after_or (is_down_iff.mp hd))
    | up sc' =>
      cases hp' : parse_scan_code sc' with
      | none => rw [processEvent_up_unrecognized hp']; exact hd
      | some k' =>
        rw [processEvent_up_recognized hp']
        refine is_down_iff.mpr (test_after_clear_other ?_ (is_down_iff.mp hd))
        intro hkk
        exact hup sc' rfl (hkk ▸ hp')

/-- C3 witness: with A already down, a repeated A-down is a no-op. -/
theorem repeated_key_down_idempotent_witness :
    processEvent (processEvents initState [KeyEvent.down 0x001E])
      (.down 0x001E) = (processEvents initState [KeyEvent.down 0x001E], none) :=
  (repeated_key_down_idempotent (processEvents initState [KeyEvent.down 0x001E])
    0x001E .KeyA rfl).1 (by decide)

/-! ### Claim C8 -/

/-- C8 counterexample: with AltRight already held (ALT bit set), AltLeft's own
up-to-down transition dispatches an event that does carry the ALT bit — the
claim that a modifier key's own down-event never carries its own modifier bit
is false. -/
theorem modifier_own_bit_counterexample :
    (processTrace initState [KeyEvent.down 0xE038, KeyEvent.down 0x0038]).2 =
      [{ key_code := .AltRight, modifiers := Modifiers.empty },
       { key_code := .AltLeft, modifiers := Modifiers.ALT }] := by decide

/-- C8, corrected: on an up-to-down transition the dispatched `Hotkey` is
composed from the Modifiers value current at that moment, and the key's own
modifier bit is applied only to the successor state, after the event is sent;
left/right variants update the same bit.  Consequently a modifier key's own
down-event does not carry its own bit whenever no variant of that modifier is
already held — but it does carry it when the other variant is held (see the
counterexample). -/
theorem modifier_down_event_order :
    ∀ (s : State) (sc : Nat) (k : KeyCode), parse_scan_code sc = some k →
      is_down s k = false →
      ((processEvent s (.down sc)).2 =
          some { key_code := k, modifiers := s.modifiers } ∧
        (processEvent s (.down sc)).1.modifiers =
          modifier_down_update k s.modifiers) ∧
      ((∀ m : Modifiers,
          modifier_down_update .AltLeft m = modifier_down_update .AltRight m) ∧
       (∀ m : Modifiers,
          modifier_down_update .ControlLeft m =
            modifier_down_update .ControlRight m) ∧
       (∀ m : Modifiers,
          modifier_down_update .MetaLeft m = modifier_down_update .MetaRight m) ∧
       (∀ m : Modifiers,
          modifier_down_update .ShiftLeft m =
            modifier_down_update .ShiftRight m)) ∧
      ((k = .AltLeft ∨ k = .AltRight) → s.modifiers.alt = false →
        ∃ hk : Hotkey, (processEvent s (.down sc)).2 = some hk ∧
          hk.modifiers.alt = false) := by
  intro s sc k hp hd
  rw [processEvent_down_fresh hp hd]
  refine ⟨⟨rfl, rfl⟩, ⟨fun _ => rfl, fun _ => rfl, fun _ => rfl, fun _ => rfl⟩, ?_⟩
  intro _ halt
  exact ⟨{ key_code := k, modifiers := s.modifiers }, rfl, halt⟩

/-- C8 witness: pressing AltLeft from the initial state dispatches
(AltLeft, {}) — no ALT bit — and only the successor state has ALT set. -/
theorem modifier_down_event_order_witness :
    (processEvent initState (KeyEvent.down 0x0038)).2 =
      some { key_code := KeyCode.AltLeft, modifiers := Modifiers.empty } ∧
    (processEvent initState (KeyEvent.down 0x0038)).1.modifiers =
      modifier_down_update .AltLeft Modifiers.empty :=
  (modifier_down_event_order initState 0x0038 .AltLeft rfl (by decide)).1

/-! ### Claim C9 -/

/-- C9, confirmed: a key-up never sends anything to the dispatcher queue, and
for a recognized key it clears the key-state bit unconditionally — whatever
the previous state of the bit. -/
theorem key_up_sends_nothing_and_clears :
    ∀ (s : State) (sc : Nat),
      (processEvent s (.up sc)).2 = none ∧
      ∀ k : KeyCode, parse_scan_code sc = some k →
        is_down (processEvent s (.up sc)).1 k = false := by
  intro s sc
  constructor
  · cases hp : parse_scan_code sc with
    | none => rw [processEvent_up_unrecognized hp]
    | some k => rw [processEvent_up_recognized hp]
  · intro k hp
    rw [processEvent_up_recognized hp]
    have h0 := test_after_clear_self s.key_state k
    simp [is_down]
    simpa using h0

/-- C9 witness: a key-up for AltRight on the fresh initial state (bit not even
set) sends nothing and leaves the bit cleared. -/
theorem key_up_sends_nothing_and_clears_witness :
    (processEvent initState (KeyEvent.up 0xE038)).2 = none ∧
    is_down (processEvent initState (KeyEvent.up 0xE038)).1 .AltRight = false :=
  ⟨(key_up_sends_nothing_and_clears initState 0xE038).1,
   (key_up_sends_nothing_and_clears initState 0xE038).2 .AltRight rfl⟩

/-! ### Claim C1 -/

/-- Every scan code listed in the table domain is accepted by the table
(checked entry by entry). -/
theorem parse_scan_code_domain_isSome :
    ∀ s ∈ scan_code_domain, (parse_scan_code s).isSome = true :=
  List.forall_mem_cons.mpr ⟨by decide,
  List.forall_mem_cons.mpr ⟨by decide,
  List.forall_mem_cons.mpr ⟨by decide,
  List.forall_mem_cons.mpr ⟨by decide,
  List.forall_mem_cons.mpr ⟨by decide,
  List.forall_mem_cons.mpr ⟨by decide,
  List.forall_mem_cons.mpr ⟨by decide,
  List.forall_mem_cons.mpr ⟨by decide,
  List.forall_mem_cons.mpr ⟨by decide,
  List.forall_mem_cons.mpr ⟨by decide,
  List.forall_mem_cons.mpr ⟨by decide,
  List.forall_mem_cons.mpr ⟨by decide,
  List.forall_mem_cons.mpr ⟨by decide,
  List.forall_mem_cons.mpr ⟨by decide,
  List.forall_mem_cons.mpr ⟨by decide,
  List.forall_mem_cons.mpr ⟨by decide,
  List.forall_mem_cons.mpr ⟨by decide,
  List.forall_mem_cons.mpr ⟨by decide,
  List.forall_mem_cons.mpr ⟨by decide,
  List.forall_mem_cons.mpr ⟨by decide,
  List.forall_mem_cons.mpr ⟨by decide,
  List.forall_mem_cons.mpr ⟨by decide,
  List.forall_mem_cons.mpr ⟨by decide,
  List.forall_mem_cons.mpr ⟨by decide,
  List.forall_mem_cons.mpr ⟨by decide,
  List.forall_mem_cons.mpr ⟨by decide,
  List.forall_mem_cons.mpr ⟨by decide,
  List.forall_mem_cons.mpr ⟨by decide,
  List.forall_mem_cons.mpr ⟨by decide,
  List.forall_mem_cons.mpr ⟨by decide,
  List.forall_mem_cons.mpr ⟨by decide,
  List.forall_mem_cons.mpr ⟨by decide,
  List.forall_mem_cons.mpr ⟨by decide,
  List.forall_mem_cons.mpr ⟨by decide,
  List.forall_mem_cons.mpr ⟨by decide,
  List.forall_mem_cons.mpr ⟨by decide,
  List.forall_mem_cons.mpr ⟨by decide,
  List.forall_mem_cons.mpr ⟨by decide,
  List.forall_mem_cons.mpr ⟨by decide,
  List.forall_mem_cons.mpr ⟨by decide,
  List.forall_mem_cons.mpr ⟨by decide,
  List.forall_mem_cons.mpr ⟨by decide,
  List.forall_mem_cons.mpr ⟨by decide,
  List.forall_mem_cons.mpr ⟨by decide,
  List.forall_mem_cons.mpr ⟨by decide,
  List.forall_mem_cons.mpr ⟨by decide,
  List.forall_mem_cons.mpr ⟨by decide,
  List.forall_mem_cons.mpr ⟨by decide,
  List.forall_mem_cons.mpr ⟨by decide,
  List.forall_mem_cons.mpr ⟨by decide,
  List.forall_mem_cons.mpr ⟨by decide,
  List.forall_mem_cons.mpr ⟨by decide,
  List.forall_mem_cons.mpr ⟨by decide,
  List.forall_mem_cons.mpr ⟨by decide,
  List.forall_mem_cons.mpr ⟨by decide,
  List.forall_mem_cons.mpr ⟨by decide,
  List.forall_mem_cons.mpr ⟨by decide,
  List.forall_mem_cons.mpr ⟨by decide,
  List.forall_mem_cons.mpr ⟨by decide,
  List.forall_mem_cons.mpr ⟨by decide,
  List.forall_mem_cons.mpr ⟨by decide,
  List.forall_mem_cons.mpr ⟨by decide,
  List.forall_mem_cons.mpr ⟨by decide,
  List.forall_mem_cons.mpr ⟨by decide,
  List.forall_mem_cons.mpr ⟨by decide,
  List.forall_mem_cons.mpr ⟨by decide,
  List.forall_mem_cons.mpr ⟨by decide,
  List.forall_mem_cons.mpr ⟨by decide,
  List.forall_mem_cons.mpr ⟨by decide,
  List.forall_mem_cons.mpr ⟨by decide,
  List.forall_mem_cons.mpr ⟨by decide,
  List.forall_mem_cons.mpr ⟨by decide,
  List.forall_mem_cons.mpr ⟨by decide,
  List.forall_mem_cons.mpr ⟨by decide,
  List.forall_mem_cons.mpr ⟨by decide,
  List.forall_mem_cons.mpr ⟨by decide,
  List.forall_mem_cons.mpr ⟨by decide,
  List.forall_mem_cons.mpr ⟨by decide,
  List.forall_mem_cons.mpr ⟨by decide,
  List.forall_mem_cons.mpr ⟨by decide,
  List.forall_mem_cons.mpr ⟨by decide,
  List.forall_mem_cons.mpr ⟨by decide,
  List.forall_mem_cons.mpr ⟨by decide,
  List.forall_mem_cons.mpr ⟨by decide,
  List.forall_mem_cons.mpr ⟨by decide,
  List.forall_mem_cons.mpr ⟨by decide,
  List.forall_mem_cons.mpr ⟨by decide,
  List.forall_mem_cons.mpr ⟨by decide,
  List.forall_mem_cons.mpr ⟨by decide,
  List.forall_mem_cons.mpr ⟨by decide,
  List.forall_mem_cons.mpr ⟨by decide,
  List.forall_mem_cons.mpr ⟨by decide,
  List.forall_mem_cons.mpr ⟨by decide,
  List.forall_mem_cons.mpr ⟨by decide,
  List.forall_mem_cons.mpr ⟨by decide,
  List.forall_mem_cons.mpr ⟨by decide,
  List.forall_mem_cons.mpr ⟨by decide,
  List.forall_mem_cons.mpr ⟨by decide,
  List.forall_mem_cons.mpr ⟨by decide,
  List.forall_mem_cons.mpr ⟨by decide,
  List.forall_mem_cons.mpr ⟨by decide,
  List.forall_mem_cons.mpr ⟨by decide,
  List.forall_mem_cons.mpr ⟨by decide,
  List.forall_mem_cons.mpr ⟨by decide,
  List.forall_mem_cons.mpr ⟨by decide,
  List.forall_mem_cons.mpr ⟨by decide,
  List.forall_mem_cons.mpr ⟨by decide,
  List.forall_mem_cons.mpr ⟨by decide,
  List.forall_mem_cons.mpr ⟨by decide,
  List.forall_mem_cons.mpr ⟨by decide,
  List.forall_mem_cons.mpr ⟨by decide,
  List.forall_mem_cons.mpr ⟨by decide,
  List.forall_mem_cons.mpr ⟨by decide,
  List.forall_mem_cons.mpr ⟨by decide,
  List.forall_mem_cons.mpr ⟨by decide,
  List.forall_mem_cons.mpr ⟨by decide,
  List.forall_mem_cons.mpr ⟨by decide,
  List.forall_mem_cons.mpr ⟨by decide,
  List.forall_mem_cons.mpr ⟨by decide,
  List.forall_mem_cons.mpr ⟨by decide,
  List.forall_mem_cons.mpr ⟨by decide,
  List.forall_mem_cons.mpr ⟨by decide,
  List.forall_mem_cons.mpr ⟨by decide,
  List.forall_mem_cons.mpr ⟨by decide,
  List.forall_mem_cons.mpr ⟨by decide,
  List.forall_mem_cons.mpr ⟨by decide,
  List.forall_mem_cons.mpr ⟨by decide,
  List.forall_mem_cons.mpr ⟨by decide,
  List.forall_mem_cons.mpr ⟨by decide,
  List.forall_mem_cons.mpr ⟨by decide,
  List.forall_mem_cons.mpr ⟨by decide,
  List.forall_mem_cons.mpr ⟨by decide,
  List.forall_mem_cons.mpr ⟨by decide,
  List.forall_mem_cons.mpr ⟨by decide,
  List.forall_mem_cons.mpr ⟨by decide,
  List.forall_mem_cons.mpr ⟨by decide,
  List.forall_mem_cons.mpr ⟨by decide,
  List.forall_mem_cons.mpr ⟨by decide,
  List.forall_mem_cons.mpr ⟨by decide,
  List.forall_mem_cons.mpr ⟨by decide,
  List.forall_mem_cons.mpr ⟨by decide,
  List.forall_mem_cons.mpr ⟨by decide,
  List.forall_mem_cons.mpr ⟨by decide,
  List.forall_mem_cons.mpr ⟨by decide,
  List.forall_mem_cons.mpr ⟨by decide,
  List.forall_mem_cons.mpr ⟨by decide,
  List.forall_mem_cons.mpr ⟨by decide,
  List.forall_mem_cons.mpr ⟨by decide,
  List.forall_mem_cons.mpr ⟨by decide,
  List.forall_mem_cons.mpr ⟨by decide,
  List.forall_mem_cons.mpr ⟨by decide,
  List.forall_mem_cons.mpr ⟨by decide,
  List.forall_mem_cons.mpr ⟨by decide,
  List.forall_mem_cons.mpr ⟨by decide,
  List.forall_mem_cons.mpr ⟨by decide,
  List.forall_mem_cons.mpr ⟨by decide,
  List.forall_mem_cons.mpr ⟨by decide,
  List.forall_mem_cons.mpr ⟨by decide,
  List.forall_mem_cons.mpr ⟨by decide,
  List.forall_mem_cons.mpr ⟨by decide,
  List.forall_mem_cons.mpr ⟨by decide,
  List.forall_mem_nil _⟩⟩⟩⟩⟩⟩⟩⟩⟩⟩⟩⟩⟩⟩⟩⟩⟩⟩⟩⟩⟩⟩⟩⟩⟩⟩⟩⟩⟩⟩⟩⟩⟩⟩⟩⟩⟩⟩⟩⟩⟩⟩⟩⟩⟩⟩⟩⟩⟩⟩⟩⟩⟩⟩⟩⟩⟩⟩⟩⟩⟩⟩⟩⟩⟩⟩⟩⟩⟩⟩⟩⟩⟩⟩⟩⟩⟩⟩⟩⟩⟩⟩⟩⟩⟩⟩⟩⟩⟩⟩⟩⟩⟩⟩⟩⟩⟩⟩⟩⟩⟩⟩⟩⟩⟩⟩⟩⟩⟩⟩⟩⟩⟩⟩⟩⟩⟩⟩⟩⟩⟩⟩⟩⟩⟩⟩⟩⟩⟩⟩⟩⟩⟩⟩⟩⟩⟩⟩⟩⟩⟩⟩⟩⟩⟩⟩⟩⟩⟩⟩⟩⟩⟩⟩⟩⟩⟩⟩⟩⟩⟩

/-- The retraction check, entry by entry: every domain scan code is either one
of the duplicated ones, or `reverse_table` maps its parse result back to it. -/
theorem reverse_table_retraction :
    ∀ s ∈ scan_code_domain,
      (decide (s ∈ duplicated_scan_codes) ||
        ((parse_scan_code s).all fun k => reverse_table k == some s)) = true :=
  List.forall_mem_cons.mpr ⟨by decide,
  List.forall_mem_cons.mpr ⟨by decide,
  List.forall_mem_cons.mpr ⟨by decide,
  List.forall_mem_cons.mpr ⟨by decide,
  List.forall_mem_cons.mpr ⟨by decide,
  List.forall_mem_cons.mpr ⟨by decide,
  List.forall_mem_cons.mpr ⟨by decide,
  List.forall_mem_cons.mpr ⟨by decide,
  List.forall_mem_cons.mpr ⟨by decide,
  List.forall_mem_cons.mpr ⟨by decide,
  List.forall_mem_cons.mpr ⟨by decide,
  List.forall_mem_cons.mpr ⟨by decide,
  List.forall_mem_cons.mpr ⟨by decide,
  List.forall_mem_cons.mpr ⟨by decide,
  List.forall_mem_cons.mpr ⟨by decide,
  List.forall_mem_cons.mpr ⟨by decide,
  List.forall_mem_cons.mpr ⟨by decide,
  List.forall_mem_cons.mpr ⟨by decide,
  List.forall_mem_cons.mpr ⟨by decide,
  List.forall_mem_cons.mpr ⟨by decide,
  List.forall_mem_cons.mpr ⟨by decide,
  List.forall_mem_cons.mpr ⟨by decide,
  List.forall_mem_cons.mpr ⟨by decide,
  List.forall_mem_cons.mpr ⟨by decide,
  List.forall_mem_cons.mpr ⟨by decide,
  List.forall_mem_cons.mpr ⟨by decide,
  List.forall_mem_cons.mpr ⟨by decide,
  List.forall_mem_cons.mpr ⟨by decide,
  List.forall_mem_cons.mpr ⟨by decide,
  List.forall_mem_cons.mpr ⟨by decide,
  List.forall_mem_cons.mpr ⟨by decide,
  List.forall_mem_cons.mpr ⟨by decide,
  List.forall_mem_cons.mpr ⟨by decide,
  List.forall_mem_cons.mpr ⟨by decide,
  List.forall_mem_cons.mpr ⟨by decide,
  List.forall_mem_cons.mpr ⟨by decide,
  List.forall_mem_cons.mpr ⟨by decide,
  List.forall_mem_cons.mpr ⟨by decide,
  List.forall_mem_cons.mpr ⟨by decide,
  List.forall_mem_cons.mpr ⟨by decide,
  List.forall_mem_cons.mpr ⟨by decide,
  List.forall_mem_cons.mpr ⟨by decide,
  List.forall_mem_cons.mpr ⟨by decide,
  List.forall_mem_cons.mpr ⟨by decide,
  List.forall_mem_cons.mpr ⟨by decide,
  List.forall_mem_cons.mpr ⟨by decide,
  List.forall_mem_cons.mpr ⟨by decide,
  List.forall_mem_cons.mpr ⟨by decide,
  List.forall_mem_cons.mpr ⟨by decide,
  List.forall_mem_cons.mpr ⟨by decide,
  List.forall_mem_cons.mpr ⟨by decide,
  List.forall_mem_cons.mpr ⟨by decide,
  List.forall_mem_cons.mpr ⟨by decide,
  List.forall_mem_cons.mpr ⟨by decide,
  List.forall_mem_cons.mpr ⟨by decide,
  List.forall_mem_cons.mpr ⟨by decide,
  List.forall_mem_cons.mpr ⟨by decide,
  List.forall_mem_cons.mpr ⟨by decide,
  List.forall_mem_cons.mpr ⟨by decide,
  List.forall_mem_cons.mpr ⟨by decide,
  List.forall_mem_cons.mpr ⟨by decide,
  List.forall_mem_cons.mpr ⟨by decide,
  List.forall_mem_cons.mpr ⟨by decide,
  List.forall_mem_cons.mpr ⟨by decide,
  List.forall_mem_cons.mpr ⟨by decide,
  List.forall_mem_cons.mpr ⟨by decide,
  List.forall_mem_cons.mpr ⟨by decide,
  List.forall_mem_cons.mpr ⟨by decide,
  List.forall_mem_cons.mpr ⟨by decide,
  List.forall_mem_cons.mpr ⟨by decide,
  List.forall_mem_cons.mpr ⟨by decide,
  List.forall_mem_cons.mpr ⟨by decide,
  List.forall_mem_cons.mpr ⟨by decide,
  List.forall_mem_cons.mpr ⟨by decide,
  List.forall_mem_cons.mpr ⟨by decide,
  List.forall_mem_cons.mpr ⟨by decide,
  List.forall_mem_cons.mpr ⟨by decide,
  List.forall_mem_cons.mpr ⟨by decide,
  List.forall_mem_cons.mpr ⟨by decide,
  List.forall_mem_cons.mpr ⟨by decide,
  List.forall_mem_cons.mpr ⟨by decide,
  List.forall_mem_cons.mpr ⟨by decide,
  List.forall_mem_cons.mpr ⟨by decide,
  List.forall_mem_cons.mpr ⟨by decide,
  List.forall_mem_cons.mpr ⟨by decide,
  List.forall_mem_cons.mpr ⟨by decide,
  List.forall_mem_cons.mpr ⟨by decide,
  List.forall_mem_cons.mpr ⟨by decide,
  List.forall_mem_cons.mpr ⟨by decide,
  List.forall_mem_cons.mpr ⟨by decide,
  List.forall_mem_cons.mpr ⟨by decide,
  List.forall_mem_cons.mpr ⟨by decide,
  List.forall_mem_cons.mpr ⟨by decide,
  List.forall_mem_cons.mpr ⟨by decide,
  List.forall_mem_cons.mpr ⟨by decide,
  List.forall_mem_cons.mpr ⟨by decide,
  List.forall_mem_cons.mpr ⟨by decide,
  List.forall_mem_cons.mpr ⟨by decide,
  List.forall_mem_cons.mpr ⟨by decide,
  List.forall_mem_cons.mpr ⟨by decide,
  List.forall_mem_cons.mpr ⟨by decide,
  List.forall_mem_cons.mpr ⟨by decide,
  List.forall_mem_cons.mpr ⟨by decide,
  List.forall_mem_cons.mpr ⟨by decide,
  List.forall_mem_cons.mpr ⟨by decide,
  List.forall_mem_cons.mpr ⟨by decide,
  List.forall_mem_cons.mpr ⟨by decide,
  List.forall_mem_cons.mpr ⟨by decide,
  List.forall_mem_cons.mpr ⟨by decide,
  List.forall_mem_cons.mpr ⟨by decide,
  List.forall_mem_cons.mpr ⟨by decide,
  List.forall_mem_cons.mpr ⟨by decide,
  List.forall_mem_cons.mpr ⟨by decide,
  List.forall_mem_cons.mpr ⟨by decide,
  List.forall_mem_cons.mpr ⟨by decide,
  List.forall_mem_cons.mpr ⟨by decide,
  List.forall_mem_cons.mpr ⟨by decide,
  List.forall_mem_cons.mpr ⟨by decide,
  List.forall_mem_cons.mpr ⟨by decide,
  List.forall_mem_cons.mpr ⟨by decide,
  List.forall_mem_cons.mpr ⟨by decide,
  List.forall_mem_cons.mpr ⟨by decide,
  List.forall_mem_cons.mpr ⟨by decide,
  List.forall_mem_cons.mpr ⟨by decide,
  List.forall_mem_cons.mpr ⟨by decide,
  List.forall_mem_cons.mpr ⟨by decide,
  List.forall_mem_cons.mpr ⟨by decide,
  List.forall_mem_cons.mpr ⟨by decide,
  List.forall_mem_cons.mpr ⟨by decide,
  List.forall_mem_cons.mpr ⟨by decide,
  List.forall_mem_cons.mpr ⟨by decide,
  List.forall_mem_cons.mpr ⟨by decide,
  List.forall_mem_cons.mpr ⟨by decide,
  List.forall_mem_cons.mpr ⟨by decide,
  List.forall_mem_cons.mpr ⟨by decide,
  List.forall_mem_cons.mpr ⟨by decide,
  List.forall_mem_cons.mpr ⟨by decide,
  List.forall_mem_cons.mpr ⟨by decide,
  List.forall_mem_cons.mpr ⟨by decide,
  List.forall_mem_cons.mpr ⟨by decide,
  List.forall_mem_cons.mpr ⟨by decide,
  List.forall_mem_cons.mpr ⟨by decide,
  List.forall_mem_cons.mpr ⟨by decide,
  List.forall_mem_cons.mpr ⟨by decide,
  List.forall_mem_cons.mpr ⟨by decide,
  List.forall_mem_cons.mpr ⟨by decide,
  List.forall_mem_cons.mpr ⟨by decide,
  List.forall_mem_cons.mpr ⟨by decide,
  List.forall_mem_cons.mpr ⟨by decide,
  List.forall_mem_cons.mpr ⟨by decide,
  List.forall_mem_cons.mpr ⟨by decide,
  List.forall_mem_cons.mpr ⟨by decide,
  List.forall_mem_cons.mpr ⟨by decide,
  List.forall_mem_cons.mpr ⟨by decide,
  List.forall_mem_cons.mpr ⟨by decide,
  List.forall_mem_cons.mpr ⟨by decide,
  List.forall_mem_cons.mpr ⟨by decide,
  List.forall_mem_cons.mpr ⟨by decide,
  List.forall_mem_cons.mpr ⟨by decide,
  List.forall_mem_cons.mpr ⟨by decide,
  List.forall_mem_cons.mpr ⟨by decide,
  List.forall_mem_nil _⟩⟩⟩⟩⟩⟩⟩⟩⟩⟩⟩⟩⟩⟩⟩⟩⟩⟩⟩⟩⟩⟩⟩⟩⟩⟩⟩⟩⟩⟩⟩⟩⟩⟩⟩⟩⟩⟩⟩⟩⟩⟩⟩⟩⟩⟩⟩⟩⟩⟩⟩⟩⟩⟩⟩⟩⟩⟩⟩⟩⟩⟩⟩⟩⟩⟩⟩⟩⟩⟩⟩⟩⟩⟩⟩⟩⟩⟩⟩⟩⟩⟩⟩⟩⟩⟩⟩⟩⟩⟩⟩⟩⟩⟩⟩⟩⟩⟩⟩⟩⟩⟩⟩⟩⟩⟩⟩⟩⟩⟩⟩⟩⟩⟩⟩⟩⟩⟩⟩⟩⟩⟩⟩⟩⟩⟩⟩⟩⟩⟩⟩⟩⟩⟩⟩⟩⟩⟩⟩⟩⟩⟩⟩⟩⟩⟩⟩⟩⟩⟩⟩⟩⟩⟩⟩⟩⟩⟩⟩⟩⟩

/-- Each duplicated scan code parses to one of the duplicated targets
(checked entry by entry). -/
theorem duplicated_scan_codes_targets :
    ∀ s ∈ duplicated_scan_codes,
      parse_scan_code s ∈ duplicated_scan_code_targets :=
  List.forall_mem_cons.mpr ⟨by decide,
  List.forall_mem_cons.mpr ⟨by decide,
  List.forall_mem_cons.mpr ⟨by decide,
  List.forall_mem_cons.mpr ⟨by decide,
  List.forall_mem_cons.mpr ⟨by decide,
  List.forall_mem_cons.mpr ⟨by decide,
  List.forall_mem_cons.mpr ⟨by decide,
  List.forall_mem_cons.mpr ⟨by decide,
  List.forall_mem_cons.mpr ⟨by decide,
  List.forall_mem_cons.mpr ⟨by decide,
  List.forall_mem_cons.mpr ⟨by decide,
  List.forall_mem_cons.mpr ⟨by decide,
  List.forall_mem_nil _⟩⟩⟩⟩⟩⟩⟩⟩⟩⟩⟩⟩

/-- C1 counterexample: 0x0036 and 0xE036 are two distinct scan codes in the
table that both map to `ShiftRight`, so the table is not injective on its
domain. -/
theorem scan_code_injectivity_counterexample :
    0x0036 ∈ scan_code_domain ∧ 0xE036 ∈ scan_code_domain ∧
    (0x0036 : Nat) ≠ 0xE036 ∧
    parse_scan_code 0x0036 = parse_scan_code 0xE036 ∧
    parse_scan_code 0x0036 = some KeyCode.ShiftRight := by decide

/-- C1, corrected: every scan code in the table is accepted and deterministically
mapped, and the mapping is injective *except* on six key codes that each have
two scan codes (`ShiftRight`, `PrintScreen`, `Pause`, `LaunchMail`, `Lang2`,
`Lang1`): two distinct scan codes of the table can only collide on one of
those targets. -/
theorem scan_code_table_injective_off_duplicates :
    (∀ s ∈ scan_code_domain, (parse_scan_code s).isSome = true) ∧
    ∀ s1 ∈ scan_code_domain, ∀ s2 ∈ scan_code_domain,
      parse_scan_code s1 = parse_scan_code s2 →
      s1 = s2 ∨ parse_scan_code s1 ∈ duplicated_scan_code_targets := by
  have hrev : ∀ s ∈ scan_code_domain, s ∉ duplicated_scan_codes →
      ∀ k : KeyCode, parse_scan_code s = some k → reverse_table k = some s := by
    intro s hs hns k hk
    have hall := reverse_table_retraction s hs
    rw [hk] at hall
    simpa [hns] using hall
  refine ⟨parse_scan_code_domain_isSome, ?_⟩
  intro s1 h1 s2 h2 heq
  by_cases hd1 : s1 ∈ duplicated_scan_codes
  · exact Or.inr (duplicated_scan_codes_targets s1 hd1)
  · by_cases hd2 : s2 ∈ duplicated_scan_codes
    · right
      rw [heq]
      exact duplicated_scan_codes_targets s2 hd2
    · left
      obtain ⟨k, hk⟩ :=
        Option.isSome_iff_exists.mp (parse_scan_code_domain_isSome s1 h1)
      have hk2 : parse_scan_code s2 = some k := heq.symm.trans hk
      have r1 := hrev s1 h1 hd1 k hk
      have r2 := hrev s2 h2 hd2 k hk2
      exact Option.some.inj (r1.symm.trans r2)

/-- C1 witness: instantiating the amended statement at the colliding pair
(0x0036, 0xE036) lands in the duplicated-targets disjunct. -/
theorem scan_code_table_injective_off_duplicates_witness :
    (parse_scan_code 0x0036).isSome = true ∧
    ((0x0036 : Nat) = 0xE036 ∨
      parse_scan_code 0x0036 ∈ duplicated_scan_code_targets) :=
  ⟨scan_code_table_injective_off_duplicates.1 0x0036 (by decide),
   scan_code_table_injective_off_duplicates.2 0x0036 (by decide) 0xE036
     (by decide) (by decide)⟩

/-! ### Claim C4 -/

/-- C4, confirmed: whenever `try_resolve`'s reverse table assigns a key code a
scan code, the forward table maps that scan code back to exactly the original
key code. -/
theorem reverse_forward_roundtrip :
    ∀ (k : KeyCode) (sc : Nat), try_resolve_scan_code k = some sc →
      parse_scan_code sc = some k := by
  have h : ∀ k : KeyCode,
      ((try_resolve_scan_code k).all fun sc => parse_scan_code sc == some k) =
        true := by
    intro k
    cases k <;> decide
  intro k sc hk
  have hall := h k
  rw [hk] at hall
  simpa using hall

/-- C4 witness: the reverse entry for KeyA is 0x001E and the forward table
sends 0x001E back to KeyA. -/
theorem reverse_forward_roundtrip_witness :
    try_resolve_scan_code .KeyA = some 0x001E ∧
    parse_scan_code 0x001E = some .KeyA :=
  ⟨rfl, reverse_forward_roundtrip .KeyA 0x001E rfl⟩

/-! ### Claim C5 -/

/-- C5, confirmed: registering a hotkey whose exact (KeyCode, Modifiers) entry
is occupied fails with `AlreadyRegistered`, leaving the registry — including
the originally stored callback — untouched; registering into a vacant entry
inserts the callback and succeeds, leaving all other entries unchanged. -/
theorem register_no_implicit_replace {α : Type} :
    ∀ (hotkeys : Registry α) (hotkey : Hotkey) (callback c₀ : α),
      (hotkeys hotkey = some c₀ →
        register hotkeys hotkey callback = (hotkeys, .error .AlreadyRegistered) ∧
        (register hotkeys hotkey callback).1 hotkey = some c₀) ∧
      (hotkeys hotkey = none →
        (register hotkeys hotkey callback).2 = .ok () ∧
        (register hotkeys hotkey callback).1 hotkey = some callback ∧
        ∀ h' : Hotkey, h' ≠ hotkey →
          (register hotkeys hotkey callback).1 h' = hotkeys h') := by
  intro m hk c c₀
  constructor
  · intro h
    exact ⟨by simp [register, h], by simp [register, h]⟩
  · intro h
    refine ⟨by simp [register, h], by simp [register, h], ?_⟩
    intro h' hne
    simp [register, h, hne]

/-- C5 witness: on a registry where every hotkey is taken, a second
registration fails with `AlreadyRegistered` and changes nothing. -/
theorem register_no_implicit_replace_witness :
    register (fun _ => some 0) { key_code := .KeyA, modifiers := Modifiers.empty }
      (1 : Nat) = ((fun _ => some 0), .error .AlreadyRegistered) :=
  ((register_no_implicit_replace (fun _ => some 0)
    { key_code := .KeyA, modifiers := Modifiers.empty } 1 0).1 rfl).1

/-! ### Claim C6 -/

/-- C6, confirmed: unregistering an absent hotkey fails with `NotRegistered`
and leaves the registry unchanged; unregistering a present one removes exactly
that entry and succeeds. -/
theorem unregister_exact_removal {α : Type} :
    ∀ (hotkeys : Registry α) (hotkey : Hotkey) (c₀ : α),
      (hotkeys hotkey = none →
        unregister hotkeys hotkey = (hotkeys, .error .NotRegistered)) ∧
      (hotkeys hotkey = some c₀ →
        (unregister hotkeys hotkey).2 = .ok () ∧
        (unregister hotkeys hotkey).1 hotkey = none ∧
        ∀ h' : Hotkey, h' ≠ hotkey →
          (unregister hotkeys hotkey).1 h' = hotkeys h') := by
  intro m hk c₀
  constructor
  · intro h
    simp [unregister, h]
  · intro h
    refine ⟨by simp [unregister, h], by simp [unregister, h], ?_⟩
    intro h' hne
    simp [unregister, h, hne]

/-- C6 witness: unregistering from the empty registry fails with
`NotRegistered` and the registry is unchanged. -/
theorem unregister_exact_removal_witness :
    unregister (fun _ => (none : Option Nat))
      { key_code := .KeyA, modifiers := Modifiers.empty } =
      ((fun _ => none), .error .NotRegistered) :=
  (unregister_exact_removal (fun _ => none)
    { key_code := .KeyA, modifiers := Modifiers.empty } 0).1 rfl

/-! ### Claim C7 -/

/-- C7, confirmed: `Hook::new` with `MustConsume` fails with
`UnmatchedPreference` before performing any resource-allocating step (no
registry allocation, no thread spawn); every other preference passes the check
and proceeds through all three steps in order. -/
theorem new_rejects_must_consume_before_spawn :
    (hook_new_steps .MustConsume = ([], some .UnmatchedPreference) ∧
      NewStep.spawnHookEngineThread ∉ (hook_new_steps .MustConsume).1 ∧
      NewStep.spawnDispatcherThread ∉ (hook_new_steps .MustConsume).1) ∧
    ∀ c : ConsumePreference, c ≠ .MustConsume →
      hook_new_steps c =
        ([.allocateRegistry, .spawnHookEngineThread, .spawnDispatcherThread],
          none) := by
  refine ⟨by decide, ?_⟩
  intro c hc
  cases c <;> first | rfl | exact absurd rfl hc

/-- C7 witness: `NoPreference` passes the check and initialization proceeds
to spawn both threads. -/
theorem new_rejects_must_consume_before_spawn_witness :
    hook_new_steps .NoPreference =
      ([.allocateRegistry, .spawnHookEngineThread, .spawnDispatcherThread],
        none) :=
  new_rejects_must_consume_before_spawn.2 .NoPreference (by decide)

/-! ### Claim C10 -/

/-- `processEvent` never changes the length of the key-state array. -/
theorem processEvent_key_state_length (s : State) (e : KeyEvent) :
    (processEvent s e).1.key_state.length = s.key_state.length := by
  cases e with
  | down sc =>
    cases hp : parse_scan_code sc with
    | none => rw [processEvent_down_unrecognized hp]
    | some k =>
      cases hd : is_down s k with
      | true => rw [processEvent_down_held hp hd]
      | false => rw [processEvent_down_fresh hp hd]; simp
  | up sc =>
    cases hp : parse_scan_code sc with
    | none => rw [processEvent_up_unrecognized hp]
    | some k => rw [processEvent_up_recognized hp]; simp

/-- C10, confirmed: every key code's discriminant fits one byte, so `key_idx`
always produces a byte index below 32; the key-state array starts with 32
bytes and keeps that length through every key-down and key-up, so the indexing
in `callback_proc` is always in bounds. -/
theorem key_state_access_in_bounds :
    (∀ k : KeyCode, KeyCode.toCtorIdx k < 256) ∧
    (∀ k : KeyCode, (key_idx k).1 < 32) ∧
    initState.key_state.length = 32 ∧
    (∀ (s : State) (evs : List KeyEvent),
      (processEvents s evs).key_state.length = s.key_state.length) ∧
    (∀ (k : KeyCode) (evs : List KeyEvent),
      (key_idx k).1 < (processEvents initState evs).key_state.length) := by
  have hlen : ∀ (s : State) (evs : List KeyEvent),
      (processEvents s evs).key_state.length = s.key_state.length := by
    intro s evs
    induction evs generalizing s with
    | nil => rfl
    | cons e rest ih =>
      show (processEvents (processEvent s e).1 rest).key_state.length = _
      rw [ih (processEvent s e).1, processEvent_key_state_length]
  refine ⟨toCtorIdx_lt_256, key_idx_fst_lt_32, rfl, hlen, ?_⟩
  intro k evs
  rw [hlen initState evs]
  exact key_idx_fst_lt_32 k

end LiveSplitHotkey
